import Mathlib

/-!
Verification of the Condor2Nav task/profile translation engine
(`src/targetXCSoarCommon.cpp`).

The development shallowly embeds the three translation routines:

* `WaypointBearing` (lines 82-96): great-circle initial bearing, real
  trigonometry modelled over `ℝ`, with the C `static_cast<unsigned>`
  of a positive double modelled as `Int.toNat ∘ Int.floor`.
* `TaskProcess` (lines 113-347): the capacity check, the per-point
  sector-compatibility resolution loop (a fold over task points
  `1 .. tpNum-1`), the AAT radial computation, and the profile writes.
  The external parsers, the coordinate converter and the output stream
  are collaborators: parsed task points arrive as a function
  `ℕ → TaskPt`, bearings between task-point indices as a function
  `ℕ → ℕ → ℕ`, and warnings/errors accumulate in the state instead of
  going to the warning sink.
* `PenaltyZonesProcess` (lines 361-399): airspace file emission, with
  the degrees/minutes/seconds coordinate formatting of the external
  converter abstracted as a function `ℕ → ℕ → String` from zone and
  corner index to the formatted coordinate pair.

C++ `unsigned` arithmetic is modelled on `ℕ`, with wraparound made
explicit (`usub1`) where the source relies on it.
-/

/-- Modelled from the spec: the target-format start geometry (the numeric
values of `xcsoar::START_*` live in the missing `imports/xcsoarTypes.h`
header, so the enum is modelled symbolically; `circle` stands for the
zero-initialised value of `SETTINGS_TASK{}`, no theorem depends on it). -/
inductive StartT
  | circle
  | line
  | sector
deriving DecidableEq, Repr

/-- Modelled from the spec: the target-format finish geometry
(`xcsoar::FINISH_*`, header missing from the sources; `circle` stands for
the zero-initialised value, no theorem depends on it). -/
inductive FinishT
  | circle
  | line
  | sector
deriving DecidableEq, Repr

/-- Modelled from the spec: the target-format task-wide sector type
(`xcsoar::AST_CIRCLE` / `xcsoar::AST_FAI`, header missing from the
sources; `circle` stands for the zero-initialised value, no theorem
depends on it). -/
inductive SectorT
  | circle
  | fai
deriving DecidableEq, Repr

/-- The warnings `TaskProcess` sends to the warning sink, tagged with the
task-point index that produced them (the source interpolates the point
name into the message text). -/
inductive Warn
  | uniformRadiusFai (i : ℕ)     -- line 254: smallest radius for all FAI sectors
  | lineUnsupported (i : ℕ)      -- line 271: line TP type unsupported mid-task
  | angle270 (i : ℕ)             -- line 279: angle 270 unsupported
  | uniformRadiusCircle (i : ℕ)  -- line 292: smallest radius for all circle sectors
  | window (i : ℕ)               -- line 318: window TP type unsupported
  | uniformTypeFinal             -- line 324: mixed TP types, FAI sector used for all
deriving DecidableEq, Repr

/-- An AAT entry written into `taskPointArray[i-1]` (lines 207-237):
either an AAT circle or an AAT sector with its start/finish radials. -/
inductive AATPt
  | circle (i radius : ℕ)
  | sector (i radius startRadial finishRadial : ℕ)
deriving DecidableEq, Repr

/-- A parsed task point: the per-point values `TaskProcess` reads from the
task parser (`TPSectorType`, `TPRadius`, `TPAngle`, `TPHeight`), already
converted to numbers. -/
structure TaskPt where
  sectorType : ℕ
  radius : ℕ
  angle : ℕ
  height : ℕ
deriving DecidableEq, Repr

/-- `condor::SECTOR_CLASSIC`. Modelled from the spec: the condor header
carrying the numeric codes is missing from the sources; the exact values
are irrelevant, only that the two codes differ. -/
def SECTOR_CLASSIC : ℕ := 0

/-- `condor::SECTOR_WINDOW`. Modelled from the spec, see `SECTOR_CLASSIC`. -/
def SECTOR_WINDOW : ℕ := 1

/-- The mutable state of the `TaskProcess` point loop: the fields of
`SETTINGS_TASK` the loop writes, the `tpsValid` flag, the AAT entries
written into `taskPointArray`, and the warnings/errors sent to the sink
(in emission order). `SETTINGS_TASK settingsTask{}` zero-initialises
every field. -/
structure St where
  startType : StartT := .circle
  finishType : FinishT := .circle
  sectorType : SectorT := .circle
  sectorRadius : ℕ := 0
  startRadius : ℕ := 0
  startMaxHeight : ℕ := 0
  finishRadius : ℕ := 0
  finishMinHeight : ℕ := 0
  tpsValid : Bool := true
  aatPoints : List AATPt := []
  warnings : List Warn := []
  errors : List ℕ := []
deriving DecidableEq, Repr

/-- Lines 227-234: the AAT sector half-angle from the two neighbour
bearings. The C++ computes `(angle1 + angle2) / 2.0` and casts the
(nonnegative) double to `unsigned`, which truncates: for integer bearings
this is exactly `ℕ` floor division. -/
def halfAngle (angle1 angle2 : ℕ) : ℕ :=
  if angle1 = angle2 then angle1
  else
    let h := (angle1 + angle2) / 2
    if (angle1 > angle2 ∧ angle1 - angle2 > 180) ∨ (angle1 < angle2 ∧ angle2 - angle1 > 180) then
      (h + 180) % 360
    else h

/-- Line 235: `static_cast<unsigned>(360 + halfAngle - angle / 2.0) % 360`.
For `a ≤ 719 + 2h` the double `360 + h - a/2.0` is nonnegative and the
cast truncates it to `360 + h - ⌈a/2⌉ = 360 + h - (a+1)/2`. -/
def aatStartRadial (h a : ℕ) : ℕ := (360 + h - (a + 1) / 2) % 360

/-- Line 236: `static_cast<unsigned>(360 + halfAngle + angle / 2.0) % 360`.
The double `360 + h + a/2.0` is nonnegative and the cast truncates it to
`360 + h + a/2` (floor). -/
def aatFinishRadial (h a : ℕ) : ℕ := (360 + h + a / 2) % 360

/-- Lines 207-237: the AAT entry for interior point `i`:
angle 360 gives an AAT circle; any other angle gives an AAT sector whose
radials come from the half-angle of the bearings from the previous
(`bear (i-1) i`) and next (`bear (i+1) i`) task points to the current one. -/
def aatPointUpdate (bear : ℕ → ℕ → ℕ) (i radius angle : ℕ) : AATPt :=
  if angle = 360 then .circle i radius
  else
    let h := halfAngle (bear (i - 1) i) (bear (i + 1) i)
    .sector i radius (aatStartRadial h angle) (aatFinishRadial h angle)

/-- Lines 242-260, `case 90`: start sector at `i = 1`, finish sector at
`i = tpNum - 1`; at an interior point, FAI candidate with the
conflict-resolution policy of the source (type conflict first invalidates
and overwrites the radius, then a surviving radius conflict warns and
takes the minimum). -/
def classicAngle90 (tpNum i radius : ℕ) (st : St) : St :=
  if i = 1 then { st with startType := .sector }
  else if i = tpNum - 1 then { st with finishType := .sector }
  else
    let st1 := if 2 < i ∧ st.sectorType ≠ .fai then
        { st with tpsValid := false, sectorRadius := radius }
      else st
    let st2 := { st1 with sectorType := SectorT.fai }
    if 2 < i ∧ st2.sectorRadius ≠ radius then
      { st2 with warnings := st2.warnings ++ [.uniformRadiusFai i],
                 sectorRadius := min st2.sectorRadius radius }
    else { st2 with sectorRadius := radius }

/-- Lines 262-276, `case 180`: start line at `i = 1`, finish line at
`i = tpNum - 1`; at an interior point the line type is unsupported: if a
FAI sector is already established (`i > 2`) the conflict is absorbed
silently into `tpsValid`, otherwise warn and fall back to a FAI sector
with this point's radius. -/
def classicAngle180 (tpNum i radius : ℕ) (st : St) : St :=
  if i = 1 then { st with startType := .line }
  else if i = tpNum - 1 then { st with finishType := .line }
  else if 2 < i ∧ st.sectorType = .fai then { st with tpsValid := false }
  else
    { st with warnings := st.warnings ++ [.lineUnsupported i],
              sectorType := .fai, sectorRadius := radius }

/-- Lines 281-299, `case 360` (also reached by fallthrough from
`case 270`): start circle at `i = 1`, finish circle at `i = tpNum - 1`;
at an interior point, circle candidate: a type conflict (`i > 2`) only
invalidates, otherwise establish the circle type and resolve a radius
conflict by warning and taking the minimum. -/
def classicAngle360 (tpNum i radius : ℕ) (st : St) : St :=
  if i = 1 then { st with startType := .circle }
  else if i = tpNum - 1 then { st with finishType := .circle }
  else if 2 < i ∧ st.sectorType ≠ .circle then { st with tpsValid := false }
  else
    let st1 := { st with sectorType := SectorT.circle }
    if 2 < i ∧ st1.sectorRadius ≠ radius then
      { st1 with warnings := st1.warnings ++ [.uniformRadiusCircle i],
                 sectorRadius := min st1.sectorRadius radius }
    else { st1 with sectorRadius := radius }

/-- Lines 241-303, the `switch(angle)` of the non-AAT classic branch.
`case 270` (line 278) warns and falls through into the `case 360` code;
any other angle hits the empty `default` and changes nothing. -/
def classicSwitch (tpNum i radius angle : ℕ) (st : St) : St :=
  if angle = 90 then classicAngle90 tpNum i radius st
  else if angle = 180 then classicAngle180 tpNum i radius st
  else if angle = 270 then
    classicAngle360 tpNum i radius { st with warnings := st.warnings ++ [.angle270 i] }
  else if angle = 360 then classicAngle360 tpNum i radius st
  else st

/-- Lines 305-314, after the switch: the start point records its radius
and its declared height limit as the start max height; the finish point
records its radius, and the finish minimum height is hard-coded to 0
(the source's AGL-only height limit is unsupported by the target). -/
def startFinishFields (tpNum i : ℕ) (p : TaskPt) (st : St) : St :=
  if i = 1 then { st with startRadius := p.radius, startMaxHeight := p.height }
  else if i = tpNum - 1 then { st with finishRadius := p.radius, finishMinHeight := 0 }
  else st

/-- Lines 199-320: processing of one task point `i` (the state-relevant
part of the loop body). A classic-sector point is either an AAT point
(AAT enabled and strictly interior) writing a `taskPointArray` entry, or
goes through the angle switch and the start/finish field assignment; a
window point only warns; any other sector code is a reported
(non-fatal) error. -/
def taskPointStep (aatEnabled : Bool) (tpNum : ℕ) (bear : ℕ → ℕ → ℕ)
    (tp : ℕ → TaskPt) (st : St) (i : ℕ) : St :=
  let p := tp i
  if p.sectorType = SECTOR_CLASSIC then
    if aatEnabled ∧ 1 < i ∧ i < tpNum - 1 then
      { st with aatPoints := st.aatPoints ++ [aatPointUpdate bear i p.radius p.angle] }
    else
      startFinishFields tpNum i p (classicSwitch tpNum i p.radius p.angle st)
  else if p.sectorType = SECTOR_WINDOW then
    { st with warnings := st.warnings ++ [.window i] }
  else { st with errors := st.errors ++ [i] }

/-- Lines 154-324: the whole point loop (`i = 1 .. tpNum-1`, the takeoff
point 0 is skipped) from the zero-initialised settings, followed by the
final uniform-type warning when `tpsValid` was cleared. -/
def resolveTask (aatEnabled : Bool) (tpNum : ℕ) (bear : ℕ → ℕ → ℕ)
    (tp : ℕ → TaskPt) : St :=
  let st := (List.range' 1 (tpNum - 1)).foldl (taskPointStep aatEnabled tpNum bear tp) {}
  if st.tpsValid then st
  else { st with warnings := st.warnings ++ [.uniformTypeFinal] }

/-- A value written into the profile key/value store. Numeric values are
written through `Convert`; the three geometry enums are kept symbolic
because their numeric codes live in the missing target-format header. -/
inductive PVal
  | nat (n : ℕ)
  | startT (t : StartT)
  | sectorT (t : SectorT)
  | finishT (t : FinishT)
deriving DecidableEq, Repr

/-- Lines 329-343: the profile writes performed after the point loop, in
source order. `FinishMinHeight` and `FAIFinishHeight` both transcribe
`settingsTask.FinishMinHeight`. -/
def taskProfileWrites (st : St) : List (String × PVal) :=
  [("StartLine", .startT st.startType),
   ("StartMaxHeight", .nat st.startMaxHeight),
   ("StartMaxHeightMargin", .nat 0),
   ("StartHeightRef", .nat 1),
   ("StartRadius", .nat st.startRadius),
   ("StartMaxSpeed", .nat 0),
   ("StartMaxSpeedMargin", .nat 0),
   ("FAISector", .sectorT st.sectorType),
   ("Radius", .nat st.sectorRadius),
   ("FinishLine", .finishT st.finishType),
   ("FinishMinHeight", .nat st.finishMinHeight),
   ("FinishRadius", .nat st.finishRadius),
   ("FAIFinishHeight", .nat st.finishMinHeight)]

/-- The result of a successful `TaskProcess` run: the resolved settings
state (with its warning/error trail) and the profile writes. -/
structure TPResult where
  settings : St
  profile : List (String × PVal)
deriving DecidableEq, Repr

/-- `2^32`: the modulus of the C++ `unsigned` arithmetic in the sources. -/
def U32 : ℕ := 4294967296

/-- `tpNum - 1` in 32-bit unsigned arithmetic (for `tpNum < 2^32`):
line 124 computes it before comparing against the capacity, so
`tpNum = 0` wraps around to `2^32 - 1`. -/
def usub1 (n : ℕ) : ℕ := (n + (U32 - 1)) % U32

/-- Lines 113-347, the state-relevant behaviour of `TaskProcess`:
throw (`Except.error`) when `tpNum - 1 > maxTaskPoints` in unsigned
arithmetic (lines 124-125); otherwise run the point loop and produce the
resolved settings and the profile writes. `aatTime > 0` enables AAT
(line 129). -/
def TaskProcess (aatTime maxTaskPoints tpNum : ℕ) (bear : ℕ → ℕ → ℕ)
    (tp : ℕ → TaskPt) : Except String TPResult :=
  if usub1 tpNum > maxTaskPoints then
    .error "ERROR: Too many waypoints in a task file!!!"
  else
    let st := resolveTask (aatTime > 0) tpNum bear tp
    .ok { settings := st, profile := taskProfileWrites st }

/-- `CTargetXCSoarCommon::AIRSPACES_FILE_NAME` (line 41). -/
def AIRSPACES_FILE_NAME : String := "Condor.txt"

/-- A parsed penalty zone: the ceiling string is written verbatim from
the parser (line 384), the base is converted to a number (line 385); the
four corner coordinates are handled by the abstracted coordinate
formatter. -/
structure PZone where
  top : String
  base : ℕ
deriving DecidableEq, Repr

/-- Lines 376-378: the fixed three-line banner of the airspace file. -/
def pzBanner : List String :=
  ["*******************************************************",
   "* Condor Task Penalty Zones generated with Condor2Nav *",
   "*******************************************************"]

/-- Lines 379-398: the record emitted for penalty zone `i` (0-indexed):
blank separator, class marker, generated name, ceiling, floor (`AL 0`
when the base is 0), and the four corner lines, where `dp i j` is the
formatted latitude/longitude pair of corner `j` produced by the external
coordinate converter. -/
def pzRecord (dp : ℕ → ℕ → String) (i : ℕ) (z : PZone) : List String :=
  ["", "AC P", "AN Penalty Zone " ++ toString (i + 1),
   "AH " ++ z.top ++ "m AMSL",
   if z.base = 0 then "AL 0" else "AL " ++ toString z.base ++ "m AMSL"] ++
  (List.range 4).map (fun j => "DP " ++ dp i j)

/-- The outcome of `PenaltyZonesProcess`: the profile writes and the
airspace file contents (`none` when no file is created). -/
structure PZResult where
  profile : List (String × String)
  file : Option (List String)
deriving DecidableEq, Repr

/-- Lines 361-399, `PenaltyZonesProcess`: zero declared zones write the
`AirspaceFile` key as an empty quoted string and return before any file
output; otherwise the quoted path (`pathPrefix / AIRSPACES_FILE_NAME`)
is written and the airspace file holds the banner followed by one record
per zone in declaration order. -/
def PenaltyZonesProcess (pathPrefix : String) (pzNum : ℕ) (zones : ℕ → PZone)
    (dp : ℕ → ℕ → String) : PZResult :=
  if pzNum = 0 then
    { profile := [("AirspaceFile", "\"\"")], file := none }
  else
    { profile := [("AirspaceFile", "\"" ++ pathPrefix ++ "/" ++ AIRSPACES_FILE_NAME ++ "\"")],
      file := some (pzBanner ++ (List.range pzNum).flatMap (fun i => pzRecord dp i (zones i))) }

/-- `Deg2Rad` (helper from the missing common header). Modelled from the
spec: inputs are degrees, internally converted to radians. -/
noncomputable def Deg2Rad (d : ℝ) : ℝ := d * Real.pi / 180

/-- `Rad2Deg` (helper from the missing common header). Modelled from the
spec: the raw arctangent result is converted back to degrees. -/
noncomputable def Rad2Deg (r : ℝ) : ℝ := r * 180 / Real.pi

/-- The C library `atan2(y, x)`, idealised over `ℝ` as the argument of
the complex number `x + y·i`, with range `(-π, π]` and `atan2 0 0 = 0`. -/
noncomputable def atan2 (y x : ℝ) : ℝ := Complex.arg ⟨x, y⟩

/-- Line 93: `y = sin(dlon) * clat2`. -/
noncomputable def bearingY (lon1 lat1 lon2 lat2 : ℝ) : ℝ :=
  Real.sin (Deg2Rad lon2 - Deg2Rad lon1) * Real.cos (Deg2Rad lat2)

/-- Line 94: `x = clat1*sin(lat2) - sin(lat1)*clat2*cos(dlon)`. -/
noncomputable def bearingX (lon1 lat1 lon2 lat2 : ℝ) : ℝ :=
  Real.cos (Deg2Rad lat1) * Real.sin (Deg2Rad lat2) -
    Real.sin (Deg2Rad lat1) * Real.cos (Deg2Rad lat2) *
      Real.cos (Deg2Rad lon2 - Deg2Rad lon1)

/-- Lines 82-96, `WaypointBearing`: 0 when both arctangent arguments are
exactly zero, otherwise `static_cast<unsigned>(360 + Rad2Deg(atan2(y,x)) + 0.5) % 360`;
the cast of the (positive) double truncates, i.e. takes the floor. -/
noncomputable def WaypointBearing (lon1 lat1 lon2 lat2 : ℝ) : ℕ :=
  let y := bearingY lon1 lat1 lon2 lat2
  let x := bearingX lon1 lat1 lon2 lat2
  if x = 0 ∧ y = 0 then 0
  else (Int.toNat ⌊(360 : ℝ) + Rad2Deg (atan2 y x) + 0.5⌋) % 360

/-- A bearing oracle returning 0 everywhere; the non-AAT scenarios never
consult it. -/
def zeroBearing : ℕ → ℕ → ℕ := fun _ _ => 0

/-- Concrete 4-point task (takeoff + start + two interior + finish,
`tpNum = 5`): interior point 2 declares a circle (angle 360) with radius
300, interior point 3 an FAI sector (angle 90) with radius 500 — a
sector-type conflict between two interior points with different radii. -/
def typeConflictTask : ℕ → TaskPt := fun i =>
  if i = 1 then ⟨SECTOR_CLASSIC, 500, 90, 0⟩
  else if i = 2 then ⟨SECTOR_CLASSIC, 300, 360, 0⟩
  else if i = 3 then ⟨SECTOR_CLASSIC, 500, 90, 0⟩
  else ⟨SECTOR_CLASSIC, 400, 90, 0⟩

/-- Concrete 4-point task (`tpNum = 5`): both interior points declare
angle 90 (FAI sector), with radii 500 and 300 — the radius-conflict
scenario of the spec. -/
def radiusConflictTask : ℕ → TaskPt := fun i =>
  if i = 1 then ⟨SECTOR_CLASSIC, 500, 90, 0⟩
  else if i = 2 then ⟨SECTOR_CLASSIC, 500, 90, 0⟩
  else if i = 3 then ⟨SECTOR_CLASSIC, 300, 90, 0⟩
  else ⟨SECTOR_CLASSIC, 400, 90, 0⟩

/-! ## Helper lemmas -/

theorem usub1_eq_sub_one {n : ℕ} (h1 : 1 ≤ n) (h2 : n < U32) : usub1 n = n - 1 := by
  unfold usub1 U32 at *
  omega

theorem classicAngle360_warnings_extend (tpNum i radius : ℕ) (st : St) :
    ∃ w, (classicAngle360 tpNum i radius st).warnings = st.warnings ++ w := by
  unfold classicAngle360
  dsimp only
  split_ifs
  all_goals first
    | exact ⟨[Warn.uniformRadiusCircle i], rfl⟩
    | exact ⟨[], (List.append_nil _).symm⟩

theorem classicSwitch_finishMinHeight (tpNum i radius angle : ℕ) (st : St) :
    (classicSwitch tpNum i radius angle st).finishMinHeight = st.finishMinHeight := by
  unfold classicSwitch classicAngle90 classicAngle180 classicAngle360
  dsimp only
  split_ifs
  all_goals rfl

theorem taskPointStep_finishMinHeight (aat : Bool) (tpNum : ℕ) (bear : ℕ → ℕ → ℕ)
    (tp : ℕ → TaskPt) (st : St) (i : ℕ) (h : st.finishMinHeight = 0) :
    (taskPointStep aat tpNum bear tp st i).finishMinHeight = 0 := by
  unfold taskPointStep startFinishFields
  dsimp only
  split_ifs
  all_goals simp only [classicSwitch_finishMinHeight, h]

theorem foldl_finishMinHeight (aat : Bool) (tpNum : ℕ) (bear : ℕ → ℕ → ℕ)
    (tp : ℕ → TaskPt) :
    ∀ (l : List ℕ) (st : St), st.finishMinHeight = 0 →
      (l.foldl (taskPointStep aat tpNum bear tp) st).finishMinHeight = 0 := by
  intro l
  induction l with
  | nil => exact fun st h => h
  | cons a l ih =>
      exact fun st h => ih _ (taskPointStep_finishMinHeight aat tpNum bear tp st a h)

theorem resolveTask_finishMinHeight (aat : Bool) (tpNum : ℕ) (bear : ℕ → ℕ → ℕ)
    (tp : ℕ → TaskPt) :
    (resolveTask aat tpNum bear tp).finishMinHeight = 0 := by
  unfold resolveTask
  dsimp only
  split
  all_goals exact foldl_finishMinHeight aat tpNum bear tp _ {} rfl

/-! ## Claim theorems -/

/-- Claim C5: a 3-point task (start angle 90 radius 500, one AAT-disabled
interior point angle 360 radius 1000, finish angle 180 radius 400, all
classic sectors) resolves to start type sector with start radius 500,
task sector type circle with sector radius 1000, finish type line with
finish radius 400, with no warnings (and no errors) emitted. -/
theorem c5_round_trip_scenario :
    resolveTask false 4
      (fun _ _ => 0)
      (fun i => if i = 1 then ⟨SECTOR_CLASSIC, 500, 90, 0⟩
                else if i = 2 then ⟨SECTOR_CLASSIC, 1000, 360, 0⟩
                else ⟨SECTOR_CLASSIC, 400, 180, 0⟩) =
    { startType := .sector, finishType := .line, sectorType := .circle,
      sectorRadius := 1000, startRadius := 500, startMaxHeight := 0,
      finishRadius := 400, finishMinHeight := 0, tpsValid := true,
      aatPoints := [], warnings := [], errors := [] } := by decide

/-- Claim C1 counterexample: in the 5-point task `typeConflictTask`,
interior point 2 establishes sector type circle with radius 300 and
interior point 3 then declares angle 90 (candidate FAI) with radius 500 —
a prior intermediate point established a different task-level sector
type. The claim demands the smaller radius (300 = min 300 500) be kept
and a uniform-sector warning be emitted; the code instead overwrites the
radius with the conflicting point's own 500 and emits no uniform-radius
warning, only the post-loop uniform-type warning. -/
theorem c1_counterexample :
    (resolveTask false 5 zeroBearing typeConflictTask).sectorRadius = 500 ∧
    (resolveTask false 5 zeroBearing typeConflictTask).sectorRadius ≠ min 300 500 ∧
    (resolveTask false 5 zeroBearing typeConflictTask).warnings = [Warn.uniformTypeFinal] := by
  decide

/-- Claim C1 (amended): the smaller-radius-plus-warning rule applies only
when the prior intermediate point established the *same* task sector
type with a different radius: (1) the concrete 500/300 FAI scenario
resolves to radius 300 with exactly one uniform-radius warning; (2)/(3)
a same-type radius conflict (FAI via angle 90, circle via angle 360)
keeps `min` of the radii and appends exactly one uniform-radius warning;
(4) an angle-90 point after a different established type flags the task
non-uniform and overwrites the radius with its own (no immediate
warning); (5) an angle-360 point after a different established type only
flags the task non-uniform; a task-level uniform-type warning is then
emitted once after the loop. -/
theorem c1_amended :
    ((resolveTask false 5 zeroBearing radiusConflictTask).sectorRadius = 300 ∧
     (resolveTask false 5 zeroBearing radiusConflictTask).warnings = [Warn.uniformRadiusFai 3]) ∧
    (∀ (tpNum i radius : ℕ) (st : St), i ≠ 1 → i ≠ tpNum - 1 → 2 < i →
      st.sectorType = SectorT.fai → st.sectorRadius ≠ radius →
      classicAngle90 tpNum i radius st =
        { st with warnings := st.warnings ++ [Warn.uniformRadiusFai i],
                  sectorRadius := min st.sectorRadius radius }) ∧
    (∀ (tpNum i radius : ℕ) (st : St), i ≠ 1 → i ≠ tpNum - 1 → 2 < i →
      st.sectorType = SectorT.circle → st.sectorRadius ≠ radius →
      classicAngle360 tpNum i radius st =
        { st with warnings := st.warnings ++ [Warn.uniformRadiusCircle i],
                  sectorRadius := min st.sectorRadius radius }) ∧
    (∀ (tpNum i radius : ℕ) (st : St), i ≠ 1 → i ≠ tpNum - 1 → 2 < i →
      st.sectorType ≠ SectorT.fai →
      classicAngle90 tpNum i radius st =
        { st with tpsValid := false, sectorType := SectorT.fai, sectorRadius := radius }) ∧
    (∀ (tpNum i radius : ℕ) (st : St), i ≠ 1 → i ≠ tpNum - 1 → 2 < i →
      st.sectorType ≠ SectorT.circle →
      classicAngle360 tpNum i radius st = { st with tpsValid := false }) := by
  refine ⟨by decide, ?_, ?_, ?_, ?_⟩
  · intro tpNum i radius st h1 h2 h3 h4 h5
    cases st
    simp only [St.sectorType] at h4
    subst h4
    simp only [St.sectorRadius] at h5
    simp [classicAngle90, h1, h2, h3, h5]
  · intro tpNum i radius st h1 h2 h3 h4 h5
    cases st
    simp only [St.sectorType] at h4
    subst h4
    simp only [St.sectorRadius] at h5
    simp [classicAngle360, h1, h2, h3, h5]
  · intro tpNum i radius st h1 h2 h3 h4
    cases st
    simp only [St.sectorType] at h4
    simp [classicAngle90, h1, h2, h3, h4]
  · intro tpNum i radius st h1 h2 h3 h4
    cases st
    simp only [St.sectorType] at h4
    simp [classicAngle360, h1, h2, h3, h4]

/-- Witness for the amended C1: each conditional clause applied at a
concrete state. -/
theorem c1_amended_witness :
    classicAngle90 5 3 300 { sectorType := SectorT.fai, sectorRadius := 500 } =
      { sectorType := SectorT.fai, sectorRadius := min 500 300,
        warnings := [Warn.uniformRadiusFai 3] } ∧
    classicAngle360 5 3 300 { sectorType := SectorT.circle, sectorRadius := 500 } =
      { sectorType := SectorT.circle, sectorRadius := min 500 300,
        warnings := [Warn.uniformRadiusCircle 3] } ∧
    classicAngle90 5 3 500 { sectorType := SectorT.circle, sectorRadius := 300 } =
      { tpsValid := false, sectorType := SectorT.fai, sectorRadius := 500 } ∧
    classicAngle360 5 3 500 { sectorType := SectorT.fai, sectorRadius := 300 } =
      { sectorType := SectorT.fai, sectorRadius := 300, tpsValid := false } := by
  refine ⟨?_, ?_, ?_, ?_⟩
  · exact c1_amended.2.1 5 3 300 _ (by decide) (by decide) (by decide) rfl (by decide)
  · exact c1_amended.2.2.1 5 3 300 _ (by decide) (by decide) (by decide) rfl (by decide)
  · exact c1_amended.2.2.2.1 5 3 500 _ (by decide) (by decide) (by decide) (by decide)
  · exact c1_amended.2.2.2.2 5 3 500 _ (by decide) (by decide) (by decide) (by decide)

/-- Claim C7: an intermediate (non-start, non-finish, non-AAT) classic
point whose angle is none of 90/180/270/360 leaves the whole resolution
state unchanged — task sector type and radius untouched, no warning, no
error: its sector contribution is silently dropped. -/
theorem c7_unmapped_angle_noop :
    ∀ (tpNum : ℕ) (bear : ℕ → ℕ → ℕ) (tp : ℕ → TaskPt) (st : St) (i : ℕ),
      (tp i).sectorType = SECTOR_CLASSIC → i ≠ 1 → i ≠ tpNum - 1 →
      (tp i).angle ≠ 90 → (tp i).angle ≠ 180 → (tp i).angle ≠ 270 → (tp i).angle ≠ 360 →
      taskPointStep false tpNum bear tp st i = st := by
  intro tpNum bear tp st i hsec h1 h2 h90 h180 h270 h360
  simp [taskPointStep, classicSwitch, startFinishFields, hsec, h1, h2, h90, h180, h270, h360]

/-- Claim C6: a classic point declared with angle 270 always gets an
"unsupported angle" warning, at any position, and is then handled
exactly by the angle-360 code run on the warning-extended state: start
position gives start type circle, finish position gives finish type
circle, and an intermediate position makes circle the candidate task
sector type (established whenever no prior conflicting type blocks it). -/
theorem c6_angle270_fallthrough :
    ∀ (tpNum i radius : ℕ) (st : St),
      Warn.angle270 i ∈ (classicSwitch tpNum i radius 270 st).warnings ∧
      classicSwitch tpNum i radius 270 st =
        classicAngle360 tpNum i radius { st with warnings := st.warnings ++ [Warn.angle270 i] } ∧
      (i = 1 → (classicSwitch tpNum i radius 270 st).startType = StartT.circle) ∧
      (i ≠ 1 → i = tpNum - 1 → (classicSwitch tpNum i radius 270 st).finishType = FinishT.circle) ∧
      (i ≠ 1 → i ≠ tpNum - 1 → ¬(2 < i ∧ st.sectorType ≠ SectorT.circle) →
        (classicSwitch tpNum i radius 270 st).sectorType = SectorT.circle) := by
  intro tpNum i radius st
  have heq : classicSwitch tpNum i radius 270 st =
      classicAngle360 tpNum i radius { st with warnings := st.warnings ++ [Warn.angle270 i] } := by
    simp [classicSwitch]
  refine ⟨?_, heq, ?_, ?_, ?_⟩
  · rw [heq]
    obtain ⟨w, hw⟩ :=
      classicAngle360_warnings_extend tpNum i radius
        { st with warnings := st.warnings ++ [Warn.angle270 i] }
    rw [hw]
    simp
  · intro h1
    rw [heq]
    simp [classicAngle360, h1]
  · intro h1 h2
    rw [heq]
    unfold classicAngle360
    dsimp only
    rw [if_neg h1, if_pos h2]
  · intro h1 h2 h3
    rw [heq]
    unfold classicAngle360
    dsimp only
    rw [if_neg h1, if_neg h2, if_neg h3]
    split_ifs
    all_goals rfl

/-- Witness for C6: the four positional consequences at concrete inputs
(start, finish, first interior, later interior). -/
theorem c6_witness :
    (classicSwitch 5 1 100 270 {}).startType = StartT.circle ∧
    (classicSwitch 5 4 100 270 {}).finishType = FinishT.circle ∧
    (classicSwitch 5 2 100 270 {}).sectorType = SectorT.circle ∧
    Warn.angle270 3 ∈ (classicSwitch 5 3 100 270 {}).warnings := by
  refine ⟨?_, ?_, ?_, ?_⟩
  · exact (c6_angle270_fallthrough 5 1 100 {}).2.2.1 rfl
  · exact (c6_angle270_fallthrough 5 4 100 {}).2.2.2.1 (by decide) (by decide)
  · exact (c6_angle270_fallthrough 5 2 100 {}).2.2.2.2 (by decide) (by decide) (by decide)
  · exact (c6_angle270_fallthrough 5 3 100 {}).1

/-- Witness for C7: an interior classic point with angle 45 changes
nothing. -/
theorem c7_witness :
    taskPointStep false 4 zeroBearing (fun _ => ⟨SECTOR_CLASSIC, 700, 45, 0⟩) {} 2 = {} :=
  c7_unmapped_angle_noop 4 zeroBearing _ {} 2 rfl (by decide) (by decide)
    (by decide) (by decide) (by decide) (by decide)

/-- Claim C2: for a declared point count `tpNum` in the unsigned range
with at least the takeoff point, `TaskProcess` throws exactly when
`tpNum - 1` exceeds the task-point capacity; otherwise it always
completes with a full result (resolved settings plus profile writes),
for arbitrary point data — malformed points only accumulate warnings or
reported errors, they never abort the translation. -/
theorem c2_capacity_totality :
    ∀ (aatTime maxTaskPoints tpNum : ℕ) (bear : ℕ → ℕ → ℕ) (tp : ℕ → TaskPt),
      1 ≤ tpNum → tpNum < U32 →
      (maxTaskPoints < tpNum - 1 →
        TaskProcess aatTime maxTaskPoints tpNum bear tp =
          .error "ERROR: Too many waypoints in a task file!!!") ∧
      (tpNum - 1 ≤ maxTaskPoints →
        TaskProcess aatTime maxTaskPoints tpNum bear tp =
          .ok { settings := resolveTask (aatTime > 0) tpNum bear tp,
                profile := taskProfileWrites (resolveTask (aatTime > 0) tpNum bear tp) }) := by
  intro aatTime maxTaskPoints tpNum bear tp h1 h2
  constructor
  · intro hover
    unfold TaskProcess
    rw [if_pos (by rw [usub1_eq_sub_one h1 h2]; exact hover)]
  · intro hok
    unfold TaskProcess
    rw [if_neg (by rw [usub1_eq_sub_one h1 h2]; omega)]

/-- Witness for C2: a 5-point task overflows a capacity of 3 and throws;
a 4-point task within the same capacity completes. -/
theorem c2_witness :
    TaskProcess 0 3 5 zeroBearing radiusConflictTask =
      .error "ERROR: Too many waypoints in a task file!!!" ∧
    TaskProcess 0 3 4 zeroBearing radiusConflictTask =
      .ok { settings := resolveTask false 4 zeroBearing radiusConflictTask,
            profile := taskProfileWrites (resolveTask false 4 zeroBearing radiusConflictTask) } :=
  ⟨(c2_capacity_totality 0 3 5 zeroBearing radiusConflictTask (by decide) (by norm_num [U32])).1
      (by decide),
   (c2_capacity_totality 0 3 4 zeroBearing radiusConflictTask (by decide) (by norm_num [U32])).2
      (by decide)⟩

/-- Claim C10 counterexample: with a declared point count of 0 the
unsigned `tpNum - 1` wraps to `2^32 - 1`, which does *not* exceed a
configured capacity of `2^32 - 1` — at that capacity value the check
passes and no exception is thrown, refuting "throws for every capacity
value". -/
theorem c10_counterexample :
    (TaskProcess 0 (U32 - 1) 0 zeroBearing radiusConflictTask).isOk = true := by
  rfl

/-- Claim C10 (amended): with a declared point count of 0 the capacity
check computes `0 - 1` in unsigned arithmetic, wrapping to `2^32 - 1`,
so `TaskProcess` throws the too-many-waypoints error for every capacity
value strictly below `2^32 - 1`; at capacity exactly `2^32 - 1` the
wrapped value no longer exceeds the maximum and no error is thrown. -/
theorem c10_amended :
    ∀ (aatTime maxTaskPoints : ℕ) (bear : ℕ → ℕ → ℕ) (tp : ℕ → TaskPt),
      maxTaskPoints < U32 - 1 →
      TaskProcess aatTime maxTaskPoints 0 bear tp =
        .error "ERROR: Too many waypoints in a task file!!!" := by
  intro aatTime maxTaskPoints bear tp h
  unfold TaskProcess
  rw [if_pos]
  show maxTaskPoints < usub1 0
  unfold usub1 U32 at *
  omega

/-- Witness for the amended C10: a zero-point task overflows the realistic
capacity 10. -/
theorem c10_amended_witness :
    TaskProcess 7 10 0 zeroBearing radiusConflictTask =
      .error "ERROR: Too many waypoints in a task file!!!" :=
  c10_amended 7 10 zeroBearing radiusConflictTask (by norm_num [U32])

/-- Claim C9: every successful translation resolves the finish minimum
height to 0 — the declared height limit of the finish point is never
transcribed — and the profile carries the `FinishMinHeight` key with
value 0 together with the duplicate `FAIFinishHeight` key carrying the
same value. -/
theorem c9_finish_min_height :
    ∀ (aatTime maxTaskPoints tpNum : ℕ) (bear : ℕ → ℕ → ℕ) (tp : ℕ → TaskPt) (r : TPResult),
      TaskProcess aatTime maxTaskPoints tpNum bear tp = .ok r →
      r.settings.finishMinHeight = 0 ∧
      ("FinishMinHeight", PVal.nat 0) ∈ r.profile ∧
      ("FAIFinishHeight", PVal.nat 0) ∈ r.profile := by
  intro aatTime maxTaskPoints tpNum bear tp r h
  unfold TaskProcess at h
  split at h
  · exact absurd h (by simp)
  · rw [Except.ok.injEq] at h
    subst h
    have h0 := resolveTask_finishMinHeight (aatTime > 0) tpNum bear tp
    refine ⟨h0, ?_, ?_⟩
    all_goals simp [taskProfileWrites, h0]

/-- Witness for C9: a 1-point task (takeoff only, empty loop) translates
with finish minimum height 0 and both profile keys present. -/
theorem c9_witness :
    ({} : St).finishMinHeight = 0 ∧
    ("FinishMinHeight", PVal.nat 0) ∈ taskProfileWrites {} ∧
    ("FAIFinishHeight", PVal.nat 0) ∈ taskProfileWrites {} :=
  c9_finish_min_height 0 10 1 zeroBearing radiusConflictTask
    { settings := {}, profile := taskProfileWrites {} } rfl

theorem pzRecord_length (dp : ℕ → ℕ → String) (i : ℕ) (z : PZone) :
    (pzRecord dp i z).length = 9 := by
  simp [pzRecord]

theorem pz_flatMap_length (dp : ℕ → ℕ → String) (zones : ℕ → PZone) :
    ∀ n, ((List.range n).flatMap (fun i => pzRecord dp i (zones i))).length = 9 * n := by
  intro n
  induction n with
  | zero => simp
  | succ k ih =>
      rw [List.range_succ]
      simp only [List.flatMap_append, List.length_append, ih]
      simp [pzRecord_length]
      omega

/-- Claim C8: with zero declared penalty zones `PenaltyZonesProcess`
writes the profile airspace-file key as an empty quoted string and
produces no airspace file at all; with a nonzero count it writes the
quoted airspace file path and emits the three-line banner followed by
one 9-line record per zone in declaration order. -/
theorem c8_penalty_zones :
    ∀ (pathPrefix : String) (pzNum : ℕ) (zones : ℕ → PZone) (dp : ℕ → ℕ → String),
      (pzNum = 0 →
        PenaltyZonesProcess pathPrefix pzNum zones dp =
          { profile := [("AirspaceFile", "\"\"")], file := none }) ∧
      (0 < pzNum →
        PenaltyZonesProcess pathPrefix pzNum zones dp =
          { profile := [("AirspaceFile",
              "\"" ++ pathPrefix ++ "/" ++ AIRSPACES_FILE_NAME ++ "\"")],
            file := some (pzBanner ++
              (List.range pzNum).flatMap (fun i => pzRecord dp i (zones i))) } ∧
        ((PenaltyZonesProcess pathPrefix pzNum zones dp).file.getD []).length =
          3 + 9 * pzNum) := by
  intro pathPrefix pzNum zones dp
  constructor
  · intro h
    subst h
    rfl
  · intro h
    have hne : pzNum ≠ 0 := by omega
    constructor
    · unfold PenaltyZonesProcess
      rw [if_neg hne]
    · unfold PenaltyZonesProcess
      rw [if_neg hne]
      show (pzBanner ++ (List.range pzNum).flatMap
        (fun i => pzRecord dp i (zones i))).length = 3 + 9 * pzNum
      rw [List.length_append, pz_flatMap_length dp zones]
      simp [pzBanner]

/-- Witness for C8: zero zones give the empty-path marker and no file;
two zones give a file of 3 + 18 lines. -/
theorem c8_witness :
    PenaltyZonesProcess "XCSoarData" 0 (fun _ => ⟨"1000", 0⟩) (fun _ _ => "LAT LON") =
      { profile := [("AirspaceFile", "\"\"")], file := none } ∧
    ((PenaltyZonesProcess "XCSoarData" 2 (fun _ => ⟨"1000", 0⟩)
        (fun _ _ => "LAT LON")).file.getD []).length = 3 + 9 * 2 :=
  ⟨(c8_penalty_zones "XCSoarData" 0 (fun _ => ⟨"1000", 0⟩) (fun _ _ => "LAT LON")).1 rfl,
   ((c8_penalty_zones "XCSoarData" 2 (fun _ => ⟨"1000", 0⟩) (fun _ _ => "LAT LON")).2
      (by norm_num)).2⟩

/-- Claim C3: for an AAT sector point (AAT enabled, strictly interior,
classic sector, angle ≠ 360): the half-angle is the (integer) arithmetic
mean of the two neighbour bearings, corrected by adding 180 and reducing
modulo 360 exactly when the bearings differ by more than 180; the AAT
start/finish radials are half-angle minus/plus half the declared angle,
each normalized into [0,360); the step records exactly this AAT sector
entry from the bearings of the previous and next task points to the
current one; and bearings 10 and 350 yield half-angle 0, not 180. -/
theorem c3_aat_bisector :
    (∀ a1 a2 : ℕ,
      (180 < a1 - a2 ∨ 180 < a2 - a1 →
        halfAngle a1 a2 = ((a1 + a2) / 2 + 180) % 360) ∧
      (a1 - a2 ≤ 180 → a2 - a1 ≤ 180 → halfAngle a1 a2 = (a1 + a2) / 2)) ∧
    (∀ h a : ℕ, 2 ∣ a →
      aatStartRadial h a = (360 + h - a / 2) % 360 ∧
      aatFinishRadial h a = (360 + h + a / 2) % 360 ∧
      aatStartRadial h a < 360 ∧ aatFinishRadial h a < 360) ∧
    (∀ (tpNum : ℕ) (bear : ℕ → ℕ → ℕ) (tp : ℕ → TaskPt) (st : St) (i : ℕ),
      1 < i → i < tpNum - 1 → (tp i).sectorType = SECTOR_CLASSIC → (tp i).angle ≠ 360 →
      taskPointStep true tpNum bear tp st i =
        { st with aatPoints := st.aatPoints ++
            [AATPt.sector i (tp i).radius
              (aatStartRadial (halfAngle (bear (i - 1) i) (bear (i + 1) i)) (tp i).angle)
              (aatFinishRadial (halfAngle (bear (i - 1) i) (bear (i + 1) i)) (tp i).angle)] }) ∧
    halfAngle 10 350 = 0 := by
  refine ⟨?_, ?_, ?_, by decide⟩
  · intro a1 a2
    constructor
    · intro hd
      unfold halfAngle
      dsimp only
      rw [if_neg (by omega), if_pos (by omega)]
    · intro hle1 hle2
      unfold halfAngle
      dsimp only
      by_cases he : a1 = a2
      · rw [if_pos he]
        subst he
        omega
      · rw [if_neg he, if_neg (by omega)]
  · intro h a ha
    obtain ⟨k, rfl⟩ := ha
    have h1 : (2 * k + 1) / 2 = 2 * k / 2 := by omega
    refine ⟨?_, rfl, Nat.mod_lt _ (by norm_num), Nat.mod_lt _ (by norm_num)⟩
    unfold aatStartRadial
    rw [h1]
  · intro tpNum bear tp st i h1 h2 hsec hang
    simp [taskPointStep, aatPointUpdate, hsec, h1, h2, hang]

/-- Witness for C3: each clause at concrete bearings/angles; an interior
AAT sector point with angle 90 and both neighbour bearings 0 records
radials 315 and 45. -/
theorem c3_witness :
    halfAngle 10 350 = ((10 + 350) / 2 + 180) % 360 ∧
    halfAngle 100 120 = (100 + 120) / 2 ∧
    aatStartRadial 0 90 = (360 + 0 - 90 / 2) % 360 ∧
    aatFinishRadial 0 90 = (360 + 0 + 90 / 2) % 360 ∧
    taskPointStep true 5 zeroBearing (fun _ => ⟨SECTOR_CLASSIC, 1000, 90, 0⟩) {} 2 =
      { aatPoints := [AATPt.sector 2 1000 315 45] } := by
  refine ⟨?_, ?_, ?_, ?_, ?_⟩
  · exact (c3_aat_bisector.1 10 350).1 (by decide)
  · exact (c3_aat_bisector.1 100 120).2 (by decide) (by decide)
  · exact ((c3_aat_bisector.2.1 0 90) (by decide)).1
  · exact ((c3_aat_bisector.2.1 0 90) (by decide)).2.1
  · exact c3_aat_bisector.2.2.1 5 zeroBearing _ {} 2 (by decide) (by decide) rfl (by decide)

/-- Claim C4: `WaypointBearing` always returns a value in [0,360) (the
argument of the truncating cast is positive, so the round-half-up and
add-360-then-mod normalization are well-defined), and returns 0 when
both arctangent arguments are exactly zero (coincident points). -/
theorem c4_waypoint_bearing :
    ∀ lon1 lat1 lon2 lat2 : ℝ,
      WaypointBearing lon1 lat1 lon2 lat2 < 360 ∧
      (0 : ℝ) < 360 + Rad2Deg (atan2 (bearingY lon1 lat1 lon2 lat2)
        (bearingX lon1 lat1 lon2 lat2)) + 0.5 ∧
      (bearingX lon1 lat1 lon2 lat2 = 0 → bearingY lon1 lat1 lon2 lat2 = 0 →
        WaypointBearing lon1 lat1 lon2 lat2 = 0) := by
  intro lon1 lat1 lon2 lat2
  have hπ := Real.pi_pos
  have h1 : -Real.pi < atan2 (bearingY lon1 lat1 lon2 lat2) (bearingX lon1 lat1 lon2 lat2) := by
    unfold atan2
    exact Complex.neg_pi_lt_arg _
  have h2 : -(180 : ℝ) <
      atan2 (bearingY lon1 lat1 lon2 lat2) (bearingX lon1 lat1 lon2 lat2) * 180 / Real.pi := by
    rw [lt_div_iff₀ hπ]
    nlinarith [h1, hπ]
  have hpos : (0 : ℝ) < 360 + Rad2Deg (atan2 (bearingY lon1 lat1 lon2 lat2)
      (bearingX lon1 lat1 lon2 lat2)) + 0.5 := by
    unfold Rad2Deg
    linarith
  refine ⟨?_, hpos, ?_⟩
  · unfold WaypointBearing
    dsimp only
    split_ifs
    · norm_num
    · exact Nat.mod_lt _ (by norm_num)
  · intro hx hy
    unfold WaypointBearing
    dsimp only
    rw [if_pos ⟨hx, hy⟩]

/-- Witness for C4: identical points give exactly-zero arctangent
arguments, hence bearing 0. -/
theorem c4_witness :
    WaypointBearing 0 0 0 0 = 0 ∧ WaypointBearing 0 0 0 0 < 360 := by
  have hx : bearingX 0 0 0 0 = 0 := by
    simp [bearingX, Deg2Rad]
  have hy : bearingY 0 0 0 0 = 0 := by
    simp [bearingY, Deg2Rad]
  exact ⟨(c4_waypoint_bearing 0 0 0 0).2.2 hx hy, (c4_waypoint_bearing 0 0 0 0).1⟩
